import Mathlib

/-!
Shallow embedding of the mobility-report extraction/reconciliation pipeline
(`mobius.py`): the `knit` command (merge of the headline summary table with the
tabulated plot data, CSV output, and the `validate` reconciliation check) and
the `proc` command.

Conventions of the embedding:
* pandas `NaN` cells are `Option.none`; a dataframe is a `List` of row
  structures whose fields are `Option`-typed where the column can hold `NaN`.
* floats are embedded as `Rat`; `Series.round` (numpy rounding) is
  round-half-to-even on `Rat`.
* a CSV file written with `to_csv(index=False)` is a header row followed by
  one list of cells per data row; cells are a small inductive so that raw
  text, numbers and missing values stay distinguishable.
* the functions imported from the `mobius` package (`graph_process`,
  `csv_process`, `text.summarise`, `prep_output_folder`) are not part of the
  given sources; they are modelled from the spec as abstract pure functions
  collected in an environment record.
-/

namespace Mobius

/-- A CSV cell as written by `to_csv`: raw text, an integer, a float
(embedded as `Rat`), a boolean, or a missing value (pandas `NaN`,
written as an empty field). -/
inductive Cell where
  | str : String → Cell
  | int : Int → Cell
  | num : Rat → Cell
  | boolean : Bool → Cell
  | na : Cell
deriving DecidableEq, Repr

/-- One row of the headline summary table produced by `text.summarise`.
Modelled from the spec: `text.summarise` is not under the given sources; per
the spec's HeadlineRow it carries country, region, plot_name, page_num,
plot_num and a headline, and per the string operations `validate` applies to
the merged table the headline is still raw text (e.g. "12%" or a
"Not enough data" sentinel phrase) at this stage. -/
structure SummaryRow where
  country : String
  region : String
  plot_name : String
  page_num : Int
  plot_num : Int
  headline : String
deriving DecidableEq, Repr

/-- One row of the tabulated plot data produced by `csv_process`.
Modelled from the spec: `csv_process` is not under the given sources; per the
spec's SeriesRow it carries the chart index `graph_num`, the asterisk flag,
a date and a numeric value, rows emitted in date order within a chart.
Dates are embedded as ordinals (what matters downstream is their order);
values can be missing. -/
structure PlotRow where
  graph_num : Int
  asterisk : Bool
  date : Nat
  value : Option Rat
deriving DecidableEq, Repr

/-- One row of the merged table `result_df` after the column selection
`result_df[["country", ..., "headline"]]`: nine columns, every one of which
can be `NaN` because the merge is outer.  The headline is still raw text. -/
structure FinalRow where
  country : Option String
  region : Option String
  plot_name : Option String
  page_num : Option Int
  plot_num : Option Int
  asterisk : Option Bool
  date : Option Nat
  value : Option Rat
  headline : Option String
deriving DecidableEq, Repr

/-- A merged row after `validate` has normalised the headline column with
`astype(float)`: the headline is now numeric-or-missing. -/
structure FinalRowNum where
  country : Option String
  region : Option String
  plot_name : Option String
  page_num : Option Int
  plot_num : Option Int
  asterisk : Option Bool
  date : Option Nat
  value : Option Rat
  headline : Option Rat
deriving DecidableEq, Repr

/-! ### Headline text normalisation (`validate`, lines 140-142) -/

/-- `df.headline.str.replace("%", "", regex=False)`: removing every
occurrence of the one-character pattern `"%"` deletes exactly the `'%'`
characters. -/
def stripPercent (s : String) : String :=
  ⟨s.data.filter (fun c => c ≠ '%')⟩

/-- The sentinel phrase tested by `str.contains("Not enough data", regex=False)`. -/
def sentinel : List Char := "Not enough data".data

/-- `p` is an initial segment of `l`. -/
def isPreOf : List Char → List Char → Bool
  | [], _ => true
  | _ :: _, [] => false
  | a :: as, b :: bs => a = b && isPreOf as bs

/-- Substring test on character lists: some suffix of `s` starts with `pat`. -/
def containsSub (pat : List Char) : List Char → Bool
  | [] => pat.isEmpty
  | c :: cs => isPreOf pat (c :: cs) || containsSub pat cs

/-- `headline.str.contains("Not enough data", regex=False)` on a present cell. -/
def containsSentinel (s : String) : Bool :=
  containsSub sentinel s.data

/-- An optional leading sign: the sign's value and the remaining text. -/
def parseSign (cs : List Char) : Bool × List Char :=
  match cs with
  | [] => (false, cs)
  | c :: t => if c = '-' then (true, t) else if c = '+' then (false, t) else (false, cs)

/-- The natural number denoted by a list of decimal digits. -/
def digitsToNat (l : List Char) : Nat :=
  l.foldl (fun a c => 10 * a + (c.toNat - 48)) 0

/-- The unsigned part of a decimal literal: integer digits, optionally a
dot and fractional digits, at least one digit in total. -/
def parseBody (body : List Char) : Option Rat :=
  let intPart := body.takeWhile (fun c => c.isDigit)
  let rest := body.dropWhile (fun c => c.isDigit)
  match rest with
  | [] => if intPart.isEmpty then none else some (mkRat (digitsToNat intPart) 1)
  | r :: frac =>
      if r = '.' then
        if frac.all (fun c => c.isDigit) then
          if intPart.isEmpty && frac.isEmpty then none
          else some (mkRat (digitsToNat (intPart ++ frac)) (10 ^ frac.length))
        else none
      else none

/-- Python `float()` on a plain decimal literal: optional sign, integer
digits, optional fractional digits, at least one digit in total; anything
else raises, which the caller surfaces as an error. -/
def parseFloat (s : String) : Option Rat :=
  let p := parseSign s.data
  match parseBody p.2 with
  | none => none
  | some q => some (if p.1 then -q else q)

/-- The three headline-normalisation steps of `validate` applied to one cell:
strip `%` signs, send cells containing the sentinel to `NaN`, then
`astype(float)` (errors propagate; `NaN` stays `NaN` throughout). -/
def normalizeHeadline (o : Option String) : Except String (Option Rat) :=
  match o with
  | none => .ok none
  | some s =>
      let s1 := stripPercent s
      if containsSentinel s1 then .ok none
      else
        match parseFloat s1 with
        | some q => .ok (some q)
        | none => .error ("could not convert string to float: " ++ s1)

/-- Normalisation of one merged row: only the headline column changes. -/
def normalizeRow (r : FinalRow) : Except String FinalRowNum :=
  match normalizeHeadline r.headline with
  | .error e => .error e
  | .ok h =>
      .ok ⟨r.country, r.region, r.plot_name, r.page_num, r.plot_num,
           r.asterisk, r.date, r.value, h⟩

/-! ### `dropna`, `groupby.tail(1)` and the mismatch test (lines 143-152) -/

/-- `df.dropna()` keeps a row only when every one of its nine columns is
present. -/
def hasNoNA (r : FinalRowNum) : Bool :=
  r.country.isSome && r.region.isSome && r.plot_name.isSome &&
  r.page_num.isSome && r.plot_num.isSome && r.asterisk.isSome &&
  r.date.isSome && r.value.isSome && r.headline.isSome

/-- The `groupby(by=["region", "plot_name"])` key of a row. -/
def keyOf (r : FinalRowNum) : Option String × Option String :=
  (r.region, r.plot_name)

/-- `groupby(...).tail(1)`: keep, in dataframe order, each row that is the
last of its group, i.e. that no later row shares a key with. -/
def lastEntries : List FinalRowNum → List FinalRowNum
  | [] => []
  | r :: rest =>
      if rest.any (fun x => keyOf x = keyOf r) then lastEntries rest
      else r :: lastEntries rest

/-- numpy / pandas `Series.round()` with no decimals: round half to even.
Written on the numerator and denominator so that it evaluates: `f` is
`⌊q⌋` and `r2` is twice the numerator of the fractional part `q - ⌊q⌋`
over the denominator `q.den`, so the three branches are the fractional
part being below, above, or exactly one half. -/
def roundHalfEven (q : Rat) : Int :=
  let f := q.num.fdiv (q.den : Int)
  let r2 := 2 * (q.num - f * (q.den : Int))
  if r2 < (q.den : Int) then f
  else if r2 > (q.den : Int) then f + 1
  else if f % 2 = 0 then f else f + 1

/-- The row filter `last_entries.value.round() != last_entries.headline`
(pandas `NaN != x` is `True`). -/
def isMismatch (r : FinalRowNum) : Bool :=
  match r.value, r.headline with
  | some v, some h => decide ((roundHalfEven v : Rat) ≠ h)
  | _, _ => true

/-- What `validate` reports: the printed count of plots with data and the
rows of `invalid_df`. -/
structure Report where
  plotsWithData : Nat
  mismatches : List FinalRowNum
deriving DecidableEq, Repr

/-- The five columns of `invalid_df` printed for triage:
`invalid_df[["country", "region", "plot_name", "value", "headline"]]`. -/
def printedMismatch (r : FinalRowNum) :
    Option String × Option String × Option String × Option Rat × Option Rat :=
  (r.country, r.region, r.plot_name, r.value, r.headline)

/-- The printed mismatch report. -/
def printedReport (rep : Report) :
    List (Option String × Option String × Option String × Option Rat × Option Rat) :=
  rep.mismatches.map printedMismatch

/-- The error pandas raises when a boolean `.loc` mask contains `NaN`. -/
def nanMaskError : String :=
  "Cannot mask with non-boolean array containing NA / NaN values"

/-- `validate(df)` (mobius.py lines 139-152): normalise the headline column,
drop rows with any missing cell, take each (region, plot_name) group's last
row, and collect the rows whose rounded value differs from their headline.

Error paths: `str.replace` (line 140) leaves `NaN` cells `NaN`, and then
the line-141 assignment `df.loc[df.headline.str.contains(...), ...]` raises
`ValueError` whenever the `str.contains` mask contains `NaN` — that is,
whenever any row's headline is missing, e.g. every series row left
unmatched by the outer join.  Stripping `%` preserves missingness, so the
guard tests the original cells.  Past that guard every headline is present
text, and the only remaining error is `astype(float)` (line 142) on
unparseable text; the mismatch comparison itself never raises. -/
def validate (rows : List FinalRow) : Except String Report :=
  if rows.any (fun r => r.headline.isNone) then
    .error nanMaskError
  else
    match rows.mapM normalizeRow with
    | .error e => .error e
    | .ok nrows =>
        let le := lastEntries (nrows.filter hasNoNA)
        .ok ⟨le.length, le.filter isMismatch⟩

/-! ### The outer merge (`knit`, line 172)

`pd.merge(summary_df, plot_df, left_on="plot_num", right_on="graph_num",
how="outer")` followed by the column selection of lines 175-185.  With
`sort=False` (the default) the merged frame lists, for each summary row in
order, its matching plot rows in plot order — or the summary row alone with
the plot columns `NaN` when nothing matches — and then every plot row whose
key matches no summary row, with the summary columns (including `plot_num`,
which is the left key) `NaN`. -/

/-- A matched pair of rows after the column selection. -/
def mergeRow (l : SummaryRow) (r : PlotRow) : FinalRow :=
  ⟨some l.country, some l.region, some l.plot_name, some l.page_num,
   some l.plot_num, some r.asterisk, some r.date, r.value, some l.headline⟩

/-- A summary row with no matching plot row: plot-side columns `NaN`. -/
def leftOnlyRow (l : SummaryRow) : FinalRow :=
  ⟨some l.country, some l.region, some l.plot_name, some l.page_num,
   some l.plot_num, none, none, none, some l.headline⟩

/-- A plot row with no matching summary row: summary-side columns `NaN`
(the selected `plot_num` column comes from the summary side, so it too is
`NaN`; the populated `graph_num` column is dropped by the selection). -/
def rightOnlyRow (r : PlotRow) : FinalRow :=
  ⟨none, none, none, none, none, some r.asterisk, some r.date, r.value, none⟩

/-- The full outer merge on `plot_num = graph_num`, already projected to the
nine selected columns. -/
def outerMerge (left : List SummaryRow) (right : List PlotRow) : List FinalRow :=
  (left.flatMap fun l =>
    let ms := right.filter (fun r => r.graph_num = l.plot_num)
    if ms.isEmpty then [leftOnlyRow l] else ms.map (mergeRow l)) ++
  (right.filter (fun r => left.all (fun l => ¬ l.plot_num = r.graph_num))).map
    rightOnlyRow

/-! ### CSV output -/

/-- A CSV file as written by `to_csv(index=False)`: rows of cells, the
header row first. -/
def Csv := List (List Cell)
deriving DecidableEq, Repr

/-- A file written by the pipeline: its path and its contents. -/
structure FileWrite where
  path : String
  content : Csv
deriving DecidableEq, Repr

/-- Render an optional cell, `NaN` for a missing value. -/
def cellOpt (f : α → Cell) : Option α → Cell
  | none => Cell.na
  | some a => f a

/-- The header of the summary CSV written at line 158.  Modelled from the
spec: the summary table's columns are country, region, plot_name, page_num,
plot_num, headline. -/
def summaryHeader : List Cell :=
  [Cell.str "country", Cell.str "region", Cell.str "plot_name",
   Cell.str "page_num", Cell.str "plot_num", Cell.str "headline"]

/-- One data row of the summary CSV: the headline is written as the raw
text `text.summarise` produced. -/
def renderSummaryRow (r : SummaryRow) : List Cell :=
  [Cell.str r.country, Cell.str r.region, Cell.str r.plot_name,
   Cell.int r.page_num, Cell.int r.plot_num, Cell.str r.headline]

/-- `summary_df.to_csv(outfile, index=False)` (line 158). -/
def summaryCsv (rows : List SummaryRow) : Csv :=
  summaryHeader :: rows.map renderSummaryRow

/-- The header of the final reconciled CSV: exactly the columns selected at
lines 175-185, in that order. -/
def finalHeader : List Cell :=
  [Cell.str "country", Cell.str "region", Cell.str "plot_name",
   Cell.str "page_num", Cell.str "plot_num", Cell.str "asterisk",
   Cell.str "date", Cell.str "value", Cell.str "headline"]

/-- One data row of the final CSV, written before `validate` runs: the
headline cell is still the raw text. -/
def renderFinalRow (r : FinalRow) : List Cell :=
  [cellOpt Cell.str r.country, cellOpt Cell.str r.region,
   cellOpt Cell.str r.plot_name, cellOpt Cell.int r.page_num,
   cellOpt Cell.int r.plot_num, cellOpt Cell.boolean r.asterisk,
   cellOpt (fun d => Cell.int (d : Int)) r.date, cellOpt Cell.num r.value,
   cellOpt Cell.str r.headline]

/-- `result_df.to_csv(final_outfile, index=False)` (line 187). -/
def finalCsv (rows : List FinalRow) : Csv :=
  finalHeader :: rows.map renderFinalRow

/-! ### Path helpers (`os.path.basename` / `os.path.splitext`) -/

/-- Split a character list on a separator character (the pieces between
occurrences, like `str.split`). -/
def splitOnChar (sep : Char) (l : List Char) : List (List Char) :=
  l.foldr
    (fun c acc =>
      match acc with
      | [] => [[c]]
      | g :: gs => if c = sep then [] :: g :: gs else (c :: g) :: gs)
    [[]]

/-- `os.path.basename`: the part after the last slash. -/
def basename (s : String) : String :=
  ⟨(splitOnChar '/' s.data).getLastD s.data⟩

/-- `os.path.splitext(...)[0]`: drop the part after the last dot. -/
def stem (s : String) : String :=
  let parts := splitOnChar '.' (basename s).data
  if parts.length ≤ 1 then basename s
  else ⟨List.intercalate ['.'] parts.dropLast⟩

/-- `os.path.join` of a folder and a file name. -/
def joinPath (folder file : String) : String :=
  folder ++ "/" ++ file

/-! ### The pipeline environment

The chart-document parser, the per-chart sampler and the text summariser are
imported from the `mobius` package, which is not part of the given sources.
Modelled from the spec: they are deterministic pure transforms — the chart
parser and the text summariser either fail (hard input error) or return
their tables, and the sampler deterministically turns one chart's paths into
date-ordered `PlotRow`s and, when `save=True`, one CSV file write. -/

/-- The raw path geometry of one chart, as `graph_process` groups it:
pixel-coordinate points per path.  Its internal structure is irrelevant to
the claims; only its flow through the pipeline matters. -/
def ChartPaths := List (List (Int × Int))

/-- The date-lookup table loaded by `pd.read_csv(dates_file)`: pixel (or
ordinal) key to date ordinal. -/
def DateLookup := List (Nat × Nat)

/-- Modelled from the spec: the external functions the pipeline calls —
`text.summarise`, `graph_process`, `pd.read_csv` on the date-lookup file,
`csv_process` (returning its rows and, since `save=True`, its file write)
and `prep_output_folder`.  Each is a pure function; a hard input error is an
`Except.error`. -/
structure KnitEnv where
  summarise : String → Except String (List SummaryRow)
  graphProcess : String → Except String (List (Int × ChartPaths))
  readCsv : String → Except String DateLookup
  csvProcess : ChartPaths → Int → DateLookup → String → List PlotRow × FileWrite
  prepOutput : String → String → Option String → String

/-- `knit(input_pdf, input_svg, output_folder)` (mobius.py lines 137-189):
summarise the PDF, write the summary CSV, parse the SVG, load the date
lookup, sample every chart (writing per-chart CSVs), outer-merge, select the
nine output columns, write the final CSV, then run `validate` on the merged
table.  Returns the file writes in order and `validate`'s report (or the
first propagated error). -/
def knit (env : KnitEnv) (input_pdf input_svg output_folder dates_file : String) :
    List FileWrite × Except String Report :=
  match env.summarise input_pdf with
  | .error e => ([], .error e)
  | .ok summary_df =>
      let w1 : FileWrite :=
        ⟨joinPath output_folder (stem input_pdf ++ "_summary.csv"),
         summaryCsv summary_df⟩
      match env.graphProcess input_svg with
      | .error e => ([w1], .error e)
      | .ok data =>
          match env.readCsv dates_file with
          | .error e => ([w1], .error e)
          | .ok lookup =>
              let processed :=
                data.map fun p => env.csvProcess p.2 p.1 lookup output_folder
              let chartWrites := processed.map Prod.snd
              let plot_df := (processed.map Prod.fst).flatten
              let result_df := outerMerge summary_df plot_df
              let w2 : FileWrite :=
                ⟨joinPath output_folder (stem input_pdf ++ ".csv"),
                 finalCsv result_df⟩
              (w1 :: chartWrites ++ [w2], validate result_df)

/-- `proc(input_location, output_folder, ...)` (mobius.py lines 118-130):
load the date lookup, prepare the output folder, parse the SVG, then sample
every chart with `save=True`.  All loads precede every file write. -/
def proc (env : KnitEnv) (input_location output_folder : String)
    (folder : Option String) (dates_file : String) :
    List FileWrite × Except String (List (List PlotRow)) :=
  match env.readCsv dates_file with
  | .error e => ([], .error e)
  | .ok lookup =>
      let out := env.prepOutput input_location output_folder folder
      match env.graphProcess input_location with
      | .error e => ([], .error e)
      | .ok data =>
          let processed := data.map fun p => env.csvProcess p.2 p.1 lookup out
          (processed.map Prod.snd, .ok (processed.map Prod.fst))

/-! ### Helper instances and lemmas -/

instance {ε α : Type} [DecidableEq ε] [DecidableEq α] :
    DecidableEq (Except ε α) := fun
  | .error a, .error b =>
      if h : a = b then .isTrue (by rw [h])
      else .isFalse (by intro he; cases he; exact h rfl)
  | .error _, .ok _ => .isFalse (by intro he; cases he)
  | .ok _, .error _ => .isFalse (by intro he; cases he)
  | .ok a, .ok b =>
      if h : a = b then .isTrue (by rw [h])
      else .isFalse (by intro he; cases he; exact h rfl)

/-- A `groupby(["region", "plot_name"])` key. -/
abbrev GroupKey := Option String × Option String

/-- The chronologically last row of the group with key `k` (rows being in
date order within each group, the last listed row is the chronologically
last): the rightmost row of `l` whose key is `k`. -/
def lastWithKey (k : GroupKey) : List FinalRowNum → Option FinalRowNum
  | [] => none
  | r :: rest =>
      match lastWithKey k rest with
      | some x => some x
      | none => if keyOf r = k then some r else none

theorem lastWithKey_eq_none {k : GroupKey} {l : List FinalRowNum} :
    lastWithKey k l = none ↔ ∀ r ∈ l, keyOf r ≠ k := by
  induction l with
  | nil => simp [lastWithKey]
  | cons a t ih =>
      cases ht : lastWithKey k t with
      | some x =>
          simp only [lastWithKey, ht]
          constructor
          · intro h; cases h
          · intro h
            have hc : lastWithKey k t = none :=
              ih.mpr (fun r hr => h r (List.mem_cons_of_mem a hr))
            rw [ht] at hc; cases hc
      | none =>
          simp only [lastWithKey, ht]
          by_cases hk : keyOf a = k
          · simp only [if_pos hk]
            constructor
            · intro h; cases h
            · intro h; exact absurd hk (h a (List.mem_cons_self a t))
          · simp only [if_neg hk]
            constructor
            · intro _ r hr hkr
              rcases List.mem_cons.mp hr with rfl | hrt
              · exact hk hkr
              · exact ih.mp ht r hrt hkr
            · intro _; trivial

theorem lastWithKey_eq_some {k : GroupKey} {x : FinalRowNum}
    {l : List FinalRowNum} (h : lastWithKey k l = some x) :
    x ∈ l ∧ keyOf x = k := by
  induction l with
  | nil => cases h
  | cons a t ih =>
      simp only [lastWithKey] at h
      cases ht : lastWithKey k t with
      | some y =>
          rw [ht] at h
          cases h
          obtain ⟨h1, h2⟩ := ih ht
          exact ⟨List.mem_cons_of_mem a h1, h2⟩
      | none =>
          rw [ht] at h
          by_cases hk : keyOf a = k
          · rw [if_pos hk] at h
            cases h
            exact ⟨List.mem_cons_self _ _, hk⟩
          · rw [if_neg hk] at h; cases h

theorem lastEntries_subset {r : FinalRowNum} {l : List FinalRowNum} :
    r ∈ lastEntries l → r ∈ l := by
  induction l with
  | nil => simp [lastEntries]
  | cons a t ih =>
      simp only [lastEntries]
      split
      · intro h; exact List.mem_cons_of_mem a (ih h)
      · intro h
        rcases List.mem_cons.mp h with rfl | h
        · exact List.mem_cons_self r t
        · exact List.mem_cons_of_mem a (ih h)

/-- `groupby.tail(1)` restricted to one key is exactly the rightmost row
with that key. -/
theorem lastEntries_filter_key (k : GroupKey) (l : List FinalRowNum) :
    (lastEntries l).filter (fun r => keyOf r = k) = (lastWithKey k l).toList := by
  induction l with
  | nil => simp [lastEntries, lastWithKey]
  | cons a t ih =>
      simp only [lastEntries, lastWithKey]
      split
      · rename_i hany
        cases ht : lastWithKey k t with
        | some x => simpa [ht] using ih
        | none =>
            rw [ih, ht]
            by_cases hk : keyOf a = k
            · exfalso
              obtain ⟨x, hx, hxk⟩ := List.any_eq_true.mp hany
              simp only [decide_eq_true_eq] at hxk
              exact (lastWithKey_eq_none.mp ht) x hx (hxk.trans hk)
            · simp [hk]
      · rename_i hany
        have hnone : ∀ x ∈ t, keyOf x ≠ keyOf a := by
          intro x hx hxk
          exact hany (List.any_eq_true.mpr ⟨x, hx, by simp [hxk]⟩)
        rw [List.filter_cons]
        by_cases hk : keyOf a = k
        · have ht : lastWithKey k t = none :=
            lastWithKey_eq_none.mpr (fun x hx hxk =>
              hnone x hx (hxk.trans hk.symm))
          simp [hk, ht, ih]
        · cases ht : lastWithKey k t with
          | some x => simp [hk, ht, ih]
          | none => simp [hk, ht, ih, if_neg hk]

/-- Unfolding `validate` when some headline cell is missing: the
`str.contains` mask contains `NaN` and the line-141 `.loc` assignment
raises. -/
theorem validate_eq_mask_error {rows : List FinalRow}
    (hmask : rows.any (fun r => r.headline.isNone) = true) :
    validate rows = .error nanMaskError := by
  simp only [validate, hmask, if_true]

/-- Unfolding `validate` when every headline is present and normalisation
succeeds. -/
theorem validate_eq {rows : List FinalRow} {nrows : List FinalRowNum}
    (hmask : rows.any (fun r => r.headline.isNone) = false)
    (h : rows.mapM normalizeRow = .ok nrows) :
    validate rows =
      .ok ⟨(lastEntries (nrows.filter hasNoNA)).length,
           (lastEntries (nrows.filter hasNoNA)).filter isMismatch⟩ := by
  simp only [validate, hmask, Bool.false_eq_true, if_false]
  rw [h]

/-- Unfolding `validate` when every headline is present but one fails to
parse as a float. -/
theorem validate_eq_error {rows : List FinalRow} {e : String}
    (hmask : rows.any (fun r => r.headline.isNone) = false)
    (h : rows.mapM normalizeRow = .error e) : validate rows = .error e := by
  simp only [validate, hmask, Bool.false_eq_true, if_false]
  rw [h]

/-- A `validate` error is the line-141 `NaN`-mask `ValueError` (some
headline missing) or an `astype(float)` parse error — never anything
later. -/
theorem validate_error_sources {rows : List FinalRow} {e : String}
    (hval : validate rows = .error e) :
    (rows.any (fun r => r.headline.isNone) = true ∧ e = nanMaskError) ∨
    (rows.any (fun r => r.headline.isNone) = false ∧
      rows.mapM normalizeRow = .error e) := by
  cases hmask : rows.any (fun r => r.headline.isNone) with
  | true =>
      rw [validate_eq_mask_error hmask] at hval
      exact Or.inl ⟨rfl, (Except.error.inj hval).symm⟩
  | false =>
      cases hmap : rows.mapM normalizeRow with
      | error e' =>
          rw [validate_eq_error hmask hmap] at hval
          refine Or.inr ⟨rfl, ?_⟩
          rw [← Except.error.inj hval, ← hmap]
      | ok nrows =>
          rw [validate_eq hmask hmap] at hval
          cases hval

/-- Membership in `groupby.tail(1)`: a row is kept exactly when it is the
rightmost row of its own group. -/
theorem mem_lastEntries {r : FinalRowNum} {l : List FinalRowNum} :
    r ∈ lastEntries l ↔ lastWithKey (keyOf r) l = some r := by
  constructor
  · intro h
    have hf : r ∈ (lastEntries l).filter (fun x => keyOf x = keyOf r) :=
      List.mem_filter.mpr ⟨h, by simp⟩
    rw [lastEntries_filter_key] at hf
    cases hw : lastWithKey (keyOf r) l with
    | none => rw [hw] at hf; cases hf
    | some x =>
        rw [hw] at hf
        simp only [Option.toList_some, List.mem_singleton] at hf
        rw [hf]
  · intro h
    have hf : (lastEntries l).filter (fun x => keyOf x = keyOf r) = [r] := by
      rw [lastEntries_filter_key, h]; rfl
    have : r ∈ (lastEntries l).filter (fun x => keyOf x = keyOf r) := by
      rw [hf]; exact List.mem_singleton_self r
    exact (List.mem_filter.mp this).1

/-- If a row of the group-wise tail is the unique rightmost row of its key,
any member of the tail with that key is that row. -/
theorem lastEntries_key_unique {k : GroupKey} {r m : FinalRowNum}
    {l : List FinalRowNum} (hlast : lastWithKey k l = some r)
    (hm : m ∈ lastEntries l) (hmk : keyOf m = k) : m = r := by
  have hf : (lastEntries l).filter (fun x => keyOf x = k) = [r] := by
    rw [lastEntries_filter_key, hlast]; rfl
  have : m ∈ (lastEntries l).filter (fun x => keyOf x = k) :=
    List.mem_filter.mpr ⟨hm, by simp [hmk]⟩
  rw [hf] at this
  exact List.mem_singleton.mp this

/-! ### Claim theorems -/

/-- C1: for the reconciled table, within each (region, plot_name) group
`validate` drops rows with a missing value, takes the chronologically last
remaining row as the group's current sample, and reports the group as a
mismatch exactly when `round(current.value)` differs from the group's
headline (the current sample's row appearing in the mismatch report, and
being the only report entry for the group); in particular a last sample of
12.4 against headline 12 passes, and a last sample of 12.6 against
headline 12 is reported as a mismatch. -/
theorem claim_C1_reconciliation :
    (∀ (rows : List FinalRow) (nrows : List FinalRowNum) (rep : Report)
        (k : GroupKey) (r : FinalRowNum) (v h : Rat),
        rows.mapM normalizeRow = .ok nrows →
        validate rows = .ok rep →
        lastWithKey k (nrows.filter hasNoNA) = some r →
        r.value = some v → r.headline = some h →
        (((∃ m ∈ rep.mismatches, keyOf m = k) ↔ (roundHalfEven v : Rat) ≠ h) ∧
         ∀ m ∈ rep.mismatches, keyOf m = k → m = r)) ∧
    (∀ (rows : List FinalRow) (rep : Report) (r : FinalRowNum),
        validate rows = .ok rep → r.value = none → r ∉ rep.mismatches) ∧
    validate (outerMerge [⟨"GB", "Total", "retail", 1, 1, "12%"⟩]
        [⟨1, false, 0, some 10⟩, ⟨1, false, 1, some (mkRat 62 5)⟩]) =
      .ok ⟨1, []⟩ ∧
    validate (outerMerge [⟨"GB", "Total", "retail", 1, 1, "12%"⟩]
        [⟨1, false, 0, some 10⟩, ⟨1, false, 1, some (mkRat 63 5)⟩]) =
      .ok ⟨1, [⟨some "GB", some "Total", some "retail", some 1, some 1,
               some false, some 1, some (mkRat 63 5), some 12⟩]⟩ := by
  refine ⟨?_, ?_, by decide, by decide⟩
  · intro rows nrows rep k r v h hmap hval hlast hv hh
    have hmask : rows.any (fun x => x.headline.isNone) = false := by
      cases hm : rows.any (fun x => x.headline.isNone) with
      | false => rfl
      | true => rw [validate_eq_mask_error hm] at hval; cases hval
    rw [validate_eq hmask hmap] at hval
    have hrep := (Except.ok.inj hval).symm
    obtain ⟨hrc, hrk⟩ := lastWithKey_eq_some hlast
    have hle : r ∈ lastEntries (nrows.filter hasNoNA) :=
      mem_lastEntries.mpr (by rw [hrk]; exact hlast)
    have hmis : rep.mismatches =
        (lastEntries (nrows.filter hasNoNA)).filter isMismatch := by
      rw [hrep]
    constructor
    · constructor
      · rintro ⟨m, hm, hmk⟩
        rw [hmis] at hm
        obtain ⟨hmle, hmmis⟩ := List.mem_filter.mp hm
        have hmr : m = r := lastEntries_key_unique hlast hmle hmk
        rw [hmr] at hmmis
        simpa [isMismatch, hv, hh] using hmmis
      · intro hne
        have hmm : isMismatch r = true := by
          simp [isMismatch, hv, hh, hne]
        exact ⟨r, by rw [hmis]; exact List.mem_filter.mpr ⟨hle, hmm⟩, hrk⟩
    · intro m hm hmk
      rw [hmis] at hm
      exact lastEntries_key_unique hlast (List.mem_filter.mp hm).1 hmk
  · intro rows rep r hval hnone hmem
    have hmask : rows.any (fun x => x.headline.isNone) = false := by
      cases hm : rows.any (fun x => x.headline.isNone) with
      | false => rfl
      | true => rw [validate_eq_mask_error hm] at hval; cases hval
    cases hmap : rows.mapM normalizeRow with
    | error e => rw [validate_eq_error hmask hmap] at hval; cases hval
    | ok nrows =>
        rw [validate_eq hmask hmap] at hval
        have hrep := (Except.ok.inj hval).symm
        rw [hrep] at hmem
        have hclean : r ∈ nrows.filter hasNoNA :=
          lastEntries_subset (List.mem_filter.mp hmem).1
        have := (List.mem_filter.mp hclean).2
        simp [hasNoNA, hnone] at this

/-- Witness for C1: in a run whose group has rows valued 12.4 then missing,
the missing-value row is dropped, and the remaining last sample 12.4
matches headline 12, so the report is empty and the missing-value row is
not in it. -/
theorem claim_C1_reconciliation_witness :
    (⟨some "GB", some "Total", some "retail", some 1, some 1, some false,
      some 1, none, some 12⟩ : FinalRowNum) ∉
      (Report.mk 1 []).mismatches :=
  claim_C1_reconciliation.2.1
    (outerMerge [⟨"GB", "Total", "retail", 1, 1, "12%"⟩]
      [⟨1, false, 0, some (mkRat 62 5)⟩, ⟨1, false, 1, none⟩])
    ⟨1, []⟩
    ⟨some "GB", some "Total", some "retail", some 1, some 1, some false,
     some 1, none, some 12⟩
    (by decide) rfl

/-! ### The sentinel survives `%`-stripping, and numeric text has none of it -/

theorem isPreOf_eq_true {p l : List Char} :
    isPreOf p l = true ↔ ∃ t, p ++ t = l := by
  induction p generalizing l with
  | nil => simp [isPreOf]
  | cons a as ih =>
      cases l with
      | nil => simp [isPreOf]
      | cons b bs =>
          simp only [isPreOf, Bool.and_eq_true, decide_eq_true_eq, ih]
          constructor
          · rintro ⟨rfl, t, rfl⟩; exact ⟨t, rfl⟩
          · rintro ⟨t, h⟩
            injection h with h1 h2
            exact ⟨h1, t, h2⟩

theorem containsSub_eq_true {pat l : List Char} :
    containsSub pat l = true ↔ ∃ a b, l = a ++ pat ++ b := by
  induction l with
  | nil =>
      simp only [containsSub, List.isEmpty_iff]
      constructor
      · rintro rfl; exact ⟨[], [], rfl⟩
      · rintro ⟨a, b, h⟩
        rcases List.append_eq_nil.mp (List.append_eq_nil.mp h.symm).1 with ⟨-, h2⟩
        exact h2
  | cons c cs ih =>
      simp only [containsSub, Bool.or_eq_true, ih, isPreOf_eq_true]
      constructor
      · rintro (⟨t, ht⟩ | ⟨a, b, rfl⟩)
        · exact ⟨[], t, ht.symm⟩
        · exact ⟨c :: a, b, rfl⟩
      · rintro ⟨a, b, hab⟩
        cases a with
        | nil => exact Or.inl ⟨b, by simpa using hab.symm⟩
        | cons a0 as =>
            injection hab with h1 h2
            exact Or.inr ⟨as, b, h2⟩

/-- Stripping `%` characters cannot destroy an occurrence of the sentinel
phrase (which contains no `%`). -/
theorem containsSentinel_stripPercent {s : String}
    (h : containsSentinel s = true) :
    containsSentinel (stripPercent s) = true := by
  unfold containsSentinel at h ⊢
  obtain ⟨a, b, hab⟩ := containsSub_eq_true.mp h
  apply containsSub_eq_true.mpr
  refine ⟨a.filter (fun c => c ≠ '%'), b.filter (fun c => c ≠ '%'), ?_⟩
  have hsent : sentinel.filter (fun c => c ≠ '%') = sentinel := by decide
  show (stripPercent s).data = _
  simp only [stripPercent, hab, List.filter_append, hsent]

/-- Text accepted by `parseBody` consists of digits and at most one dot. -/
theorem parseBody_chars {body : List Char} {q : Rat}
    (h : parseBody body = some q) :
    ∀ c ∈ body, c.isDigit = true ∨ c = '.' := by
  intro c hc
  have hsplit : body.takeWhile (fun x => x.isDigit) ++
      body.dropWhile (fun x => x.isDigit) = body :=
    List.takeWhile_append_dropWhile _ _
  cases hrest : body.dropWhile (fun x => x.isDigit) with
  | nil =>
      rw [hrest] at hsplit
      rw [← hsplit] at hc
      simp only [List.append_nil] at hc
      exact Or.inl (List.mem_takeWhile_imp hc)
  | cons r0 rs =>
      rw [hrest] at hsplit
      simp only [parseBody, hrest] at h
      by_cases hr0 : r0 = '.'
      · rw [if_pos hr0] at h
        by_cases hall : rs.all (fun c => c.isDigit) = true
        · rw [← hsplit] at hc
          rcases List.mem_append.mp hc with hc1 | hc2
          · exact Or.inl (List.mem_takeWhile_imp hc1)
          · rcases List.mem_cons.mp hc2 with rfl | hc3
            · exact Or.inr hr0
            · exact Or.inl (List.all_eq_true.mp hall c hc3)
        · rw [if_neg hall] at h; cases h
      · rw [if_neg hr0] at h; cases h

/-- Text accepted by `parseFloat` consists of a sign, digits and a dot. -/
theorem parseFloat_chars {s : String} {q : Rat}
    (h : parseFloat s = some q) :
    ∀ c ∈ s.data, c.isDigit = true ∨ c = '-' ∨ c = '+' ∨ c = '.' := by
  intro c hc
  simp only [parseFloat] at h
  cases hpb : parseBody (parseSign s.data).2 with
  | none => rw [hpb] at h; cases h
  | some q' =>
      have hbody := parseBody_chars hpb
      cases hcs : s.data with
      | nil => rw [hcs] at hc; cases hc
      | cons c0 t =>
          rw [hcs] at hc hbody
          simp only [parseSign] at hbody
          by_cases h0 : c0 = '-'
          · rw [if_pos h0] at hbody
            rcases List.mem_cons.mp hc with rfl | hct
            · exact Or.inr (Or.inl h0)
            · rcases hbody c hct with hd | hd
              · exact Or.inl hd
              · exact Or.inr (Or.inr (Or.inr hd))
          · rw [if_neg h0] at hbody
            by_cases h1 : c0 = '+'
            · rw [if_pos h1] at hbody
              rcases List.mem_cons.mp hc with rfl | hct
              · exact Or.inr (Or.inr (Or.inl h1))
              · rcases hbody c hct with hd | hd
                · exact Or.inl hd
                · exact Or.inr (Or.inr (Or.inr hd))
            · rw [if_neg h1] at hbody
              rcases hbody c hc with hd | hd
              · exact Or.inl hd
              · exact Or.inr (Or.inr (Or.inr hd))

/-- Text that parses as a float cannot contain the sentinel phrase. -/
theorem parseFloat_not_sentinel {s : String} {q : Rat}
    (h : parseFloat s = some q) : containsSentinel s = false := by
  by_contra hc
  have hc' : containsSentinel s = true := by
    cases hb : containsSentinel s
    · exact absurd hb hc
    · rfl
  obtain ⟨a, b, hab⟩ := containsSub_eq_true.mp hc'
  have hN : 'N' ∈ s.data := by
    rw [hab]
    exact List.mem_append.mpr (Or.inl (List.mem_append.mpr (Or.inr (by decide))))
  exact absurd (parseFloat_chars h 'N' hN) (by decide)

/-- C3: every headline text matching the "not enough data" sentinel is
normalized to a missing headline value (`NaN`), never to zero; every other
headline text — one that denotes a numeric percentage — is parsed as its
numeric value (with any `%` sign stripped first). -/
theorem claim_C3_sentinel_normalization :
    (∀ s : String, containsSentinel s = true →
        normalizeHeadline (some s) = .ok none) ∧
    (∀ s : String, containsSentinel s = true →
        normalizeHeadline (some s) ≠ .ok (some 0)) ∧
    (∀ (s : String) (q : Rat), parseFloat (stripPercent s) = some q →
        normalizeHeadline (some s) = .ok (some q)) := by
  have part1 : ∀ s : String, containsSentinel s = true →
      normalizeHeadline (some s) = .ok none := by
    intro s hs
    have h1 := containsSentinel_stripPercent hs
    simp [normalizeHeadline, h1]
  refine ⟨part1, ?_, ?_⟩
  · intro s hs hzero
    rw [part1 s hs] at hzero
    cases Except.ok.inj hzero
  · intro s q hp
    have h0 := parseFloat_not_sentinel hp
    simp [normalizeHeadline, h0, hp]

/-- Witness for C3: the sentinel phrase "Not enough data for this date*"
normalizes to missing (not zero), and the numeric text "12%" parses to 12. -/
theorem claim_C3_sentinel_normalization_witness :
    normalizeHeadline (some "Not enough data for this date*") = .ok none ∧
    normalizeHeadline (some "Not enough data for this date*") ≠ .ok (some 0) ∧
    normalizeHeadline (some "12%") = .ok (some 12) :=
  ⟨claim_C3_sentinel_normalization.1 "Not enough data for this date*" (by decide),
   claim_C3_sentinel_normalization.2.1 "Not enough data for this date*" (by decide),
   claim_C3_sentinel_normalization.2.2 "12%" 12 (by decide)⟩

/-- C9: the mismatch comparison rounds with round-half-to-even semantics: a
rational lies exactly halfway between two integers exactly when its reduced
denominator is 2, and for every such value `roundHalfEven` returns an even
integer at distance one half (the nearest even integer); concretely, a
group whose last value is 12.5 with headline 12 is not reported as a
mismatch, and one whose last value is 13.5 with headline 14 is not
reported as a mismatch. -/
theorem claim_C9_round_half_to_even :
    (∀ q : Rat, q.den = 2 ↔ ∃ n : Int, q = (n : Rat) + 1 / 2) ∧
    (∀ q : Rat, q.den = 2 →
        roundHalfEven q % 2 = 0 ∧
        ((roundHalfEven q : Rat) = q - 1 / 2 ∨
         (roundHalfEven q : Rat) = q + 1 / 2)) ∧
    validate (outerMerge [⟨"GB", "Total", "retail", 1, 1, "12%"⟩]
        [⟨1, false, 0, some (mkRat 25 2)⟩]) = .ok ⟨1, []⟩ ∧
    validate (outerMerge [⟨"GB", "Total", "retail", 1, 1, "14%"⟩]
        [⟨1, false, 0, some (mkRat 27 2)⟩]) = .ok ⟨1, []⟩ := by
  have hodd : ∀ q : Rat, q.den = 2 → q.num % 2 = 1 := by
    intro q h2
    have hcop := q.reduced
    rw [h2] at hcop
    have h1 : q.num.natAbs % 2 = 1 :=
      Nat.odd_iff.mp (Nat.coprime_two_right.mp hcop)
    omega
  have hchar : ∀ q : Rat, q.den = 2 →
      roundHalfEven q =
        if (q.num / 2) % 2 = 0 then q.num / 2 else q.num / 2 + 1 := by
    intro q h2
    have h1 := hodd q h2
    simp only [roundHalfEven, h2, Nat.cast_ofNat]
    rw [Int.fdiv_eq_ediv _ (by norm_num)]
    have h22 : 2 * (q.num - q.num / 2 * 2) = 2 := by omega
    rw [h22]
    norm_num
  refine ⟨?_, ?_, by decide, by decide⟩
  · intro q
    constructor
    · intro h2
      refine ⟨q.num / 2, ?_⟩
      have hq : q = (q.num : Rat) / 2 := by
        conv_lhs => rw [← Rat.num_div_den q]
        rw [h2]
        norm_num
      have hn : q.num = 2 * (q.num / 2) + 1 := by
        have := hodd q h2
        omega
      set f := q.num / 2 with hf
      rw [hq, hn]
      push_cast
      ring
    · rintro ⟨n, rfl⟩
      have hcop : (2 * n + 1).natAbs.Coprime 2 :=
        Nat.coprime_two_right.mpr (Nat.odd_iff.mpr (by omega))
      have heq : ((n : Rat) + 1 / 2) =
          (⟨2 * n + 1, 2, by norm_num, hcop⟩ : Rat) := by
        rw [Rat.mk'_eq_divInt, Rat.divInt_eq_div]
        push_cast
        ring
      rw [heq]
  · intro q h2
    have h1 := hodd q h2
    have hch := hchar q h2
    have hq : q = (q.num : Rat) / 2 := by
      conv_lhs => rw [← Rat.num_div_den q]
      rw [h2]
      norm_num
    have hn : q.num = 2 * (q.num / 2) + 1 := by omega
    constructor
    · rw [hch]
      split
      · omega
      · rename_i hpar
        omega
    · set f := q.num / 2 with hf
      by_cases hpar : f % 2 = 0
      · left
        rw [hch, if_pos hpar, hq, hn]
        push_cast
        ring
      · right
        rw [hch, if_neg hpar, hq, hn]
        push_cast
        ring

/-- Witness for C9: 12.5 lies halfway between integers (denominator 2) and
rounds to the even integer 12, at distance one half below it. -/
theorem claim_C9_round_half_to_even_witness :
    roundHalfEven (mkRat 25 2) % 2 = 0 ∧
    ((roundHalfEven (mkRat 25 2) : Rat) = mkRat 25 2 - 1 / 2 ∨
     (roundHalfEven (mkRat 25 2) : Rat) = mkRat 25 2 + 1 / 2) :=
  claim_C9_round_half_to_even.2.1 (mkRat 25 2) (by decide)

/-- C10 counterexample: a merged table with a series row left unmatched by
the outer join (its headline cell `NaN`) is not processed by `dropna` at
all — the line-141 `.loc` assignment's `str.contains` mask contains `NaN`
and `validate` raises the pandas `ValueError` before any count or mismatch
report is produced, so such a row is not "excluded from the count and the
report" as the claim states. -/
theorem claim_C10_dropna_counterexample :
    (⟨none, none, none, none, none, some false, some 0, some 10, none⟩ :
        FinalRow) ∈
      outerMerge [⟨"GB", "Total", "retail", 1, 1, "12%"⟩]
        [⟨2, false, 0, some 10⟩, ⟨1, false, 3, some (mkRat 62 5)⟩] ∧
    validate (outerMerge [⟨"GB", "Total", "retail", 1, 1, "12%"⟩]
        [⟨2, false, 0, some 10⟩, ⟨1, false, 3, some (mkRat 62 5)⟩]) =
      .error nanMaskError := by
  decide

/-- C10 amended: failing `dropna` is exactly having some missing column,
not only `value`, and in every run that completes, a merged row with any
missing column — e.g. a headline row left unmatched by the outer join,
missing asterisk, date and value — is excluded from the group-tail
selection, from the reported count of plots with data (which counts only
the selected rows), and from the mismatch report; however a row with a
missing *headline* (a series row left unmatched by the outer join) never
reaches `dropna`: the `str.contains` mask of line 141 then contains `NaN`
and `validate` raises the pandas `ValueError` instead, producing no count
or report at all. -/
theorem claim_C10_dropna_all_columns :
    (∀ r : FinalRowNum,
        hasNoNA r = false ↔
          (r.country = none ∨ r.region = none ∨ r.plot_name = none ∨
           r.page_num = none ∨ r.plot_num = none ∨ r.asterisk = none ∨
           r.date = none ∨ r.value = none ∨ r.headline = none)) ∧
    (∀ (rows : List FinalRow) (nrows : List FinalRowNum) (rep : Report)
        (r : FinalRowNum),
        rows.mapM normalizeRow = .ok nrows →
        validate rows = .ok rep →
        hasNoNA r = false →
        r ∉ lastEntries (nrows.filter hasNoNA) ∧
        rep.plotsWithData = (lastEntries (nrows.filter hasNoNA)).length ∧
        r ∉ rep.mismatches) ∧
    (∀ rows : List FinalRow,
        rows.any (fun r => r.headline.isNone) = true →
        validate rows = .error nanMaskError) := by
  refine ⟨?_, ?_, fun _ hmask => validate_eq_mask_error hmask⟩
  · intro r
    rw [← Bool.not_eq_true]
    simp only [hasNoNA, Bool.and_eq_true, Option.isSome_iff_ne_none]
    tauto
  · intro rows nrows rep r hmap hval hna
    have hmask : rows.any (fun x => x.headline.isNone) = false := by
      cases hm : rows.any (fun x => x.headline.isNone) with
      | false => rfl
      | true => rw [validate_eq_mask_error hm] at hval; cases hval
    rw [validate_eq hmask hmap] at hval
    have hrep := (Except.ok.inj hval).symm
    have hnot : r ∉ lastEntries (nrows.filter hasNoNA) := by
      intro hmem
      have hclean := lastEntries_subset hmem
      have := (List.mem_filter.mp hclean).2
      rw [hna] at this
      cases this
    refine ⟨hnot, by rw [hrep], ?_⟩
    intro hmem
    rw [hrep] at hmem
    exact hnot (List.mem_filter.mp hmem).1

/-- Witness for the amended C10: in a completed run with a headline row
left unmatched by the outer join (missing asterisk, date and value, though
its headline "7%" is present so the `NaN` mask passes), that row is
excluded from the tail selection, from the count (1, not 2) and from the
mismatch report. -/
theorem claim_C10_dropna_all_columns_witness :
    (⟨some "GB", some "Total", some "grocery", some 1, some 2,
        none, none, none, some 7⟩ : FinalRowNum) ∉
      lastEntries (List.filter hasNoNA
        [⟨some "GB", some "Total", some "retail", some 1, some 1,
          some false, some 0, some (mkRat 62 5), some 12⟩,
         ⟨some "GB", some "Total", some "grocery", some 1, some 2,
          none, none, none, some 7⟩]) ∧
    (Report.mk 1 []).plotsWithData =
      (lastEntries (List.filter hasNoNA
        [⟨some "GB", some "Total", some "retail", some 1, some 1,
          some false, some 0, some (mkRat 62 5), some 12⟩,
         ⟨some "GB", some "Total", some "grocery", some 1, some 2,
          none, none, none, some 7⟩])).length ∧
    (⟨some "GB", some "Total", some "grocery", some 1, some 2,
        none, none, none, some 7⟩ : FinalRowNum) ∉
      (Report.mk 1 []).mismatches :=
  claim_C10_dropna_all_columns.2.1
    (outerMerge [⟨"GB", "Total", "retail", 1, 1, "12%"⟩,
      ⟨"GB", "Total", "grocery", 1, 2, "7%"⟩]
      [⟨1, false, 0, some (mkRat 62 5)⟩])
    [⟨some "GB", some "Total", some "retail", some 1, some 1,
      some false, some 0, some (mkRat 62 5), some 12⟩,
     ⟨some "GB", some "Total", some "grocery", some 1, some 2,
      none, none, none, some 7⟩]
    ⟨1, []⟩
    ⟨some "GB", some "Total", some "grocery", some 1, some 2,
      none, none, none, some 7⟩
    (by decide) (by decide) (by decide)

/-- C4: a reconciliation mismatch is a reported finding, not a failure: in
every run that completes, every selected group row whose rounded value
disagrees with its headline is collected in the report's mismatch list,
each collected row is surfaced with its country, region, plot_name, value
and headline, and `validate` never fails because of a mismatch — the only
errors it can propagate are the line-141 `NaN`-mask `ValueError` (a
missing headline, i.e. a series row left unmatched by the join) and a
headline-parsing error from `astype(float)`, both raised before the
mismatch comparison runs. -/
theorem claim_C4_mismatch_reported_not_raised :
    (∀ (rows : List FinalRow) (nrows : List FinalRowNum) (rep : Report)
        (r : FinalRowNum),
        rows.mapM normalizeRow = .ok nrows →
        validate rows = .ok rep →
        r ∈ lastEntries (nrows.filter hasNoNA) →
        isMismatch r = true →
        r ∈ rep.mismatches) ∧
    (∀ rep : Report, ∀ r ∈ rep.mismatches,
        (r.country, r.region, r.plot_name, r.value, r.headline) ∈
          printedReport rep) ∧
    (∀ (rows : List FinalRow) (e : String),
        validate rows = .error e →
        (rows.any (fun r => r.headline.isNone) = true ∧ e = nanMaskError) ∨
        (rows.any (fun r => r.headline.isNone) = false ∧
          rows.mapM normalizeRow = .error e)) := by
  refine ⟨?_, ?_, fun _ _ hval => validate_error_sources hval⟩
  · intro rows nrows rep r hmap hval hle hmis
    have hmask : rows.any (fun x => x.headline.isNone) = false := by
      cases hm : rows.any (fun x => x.headline.isNone) with
      | false => rfl
      | true => rw [validate_eq_mask_error hm] at hval; cases hval
    rw [validate_eq hmask hmap] at hval
    have hrep := (Except.ok.inj hval).symm
    rw [hrep]
    exact List.mem_filter.mpr ⟨hle, hmis⟩
  · intro rep r hr
    exact List.mem_map_of_mem printedMismatch hr

/-- Witness for C4: the 12.6-vs-12 mismatching group's row is collected in
the report. -/
theorem claim_C4_mismatch_reported_not_raised_witness :
    (⟨some "GB", some "Total", some "retail", some 1, some 1, some false,
      some 1, some (mkRat 63 5), some 12⟩ : FinalRowNum) ∈
      (Report.mk 1 [⟨some "GB", some "Total", some "retail", some 1, some 1,
        some false, some 1, some (mkRat 63 5), some 12⟩]).mismatches :=
  claim_C4_mismatch_reported_not_raised.1
    (outerMerge [⟨"GB", "Total", "retail", 1, 1, "12%"⟩]
      [⟨1, false, 0, some 10⟩, ⟨1, false, 1, some (mkRat 63 5)⟩])
    [⟨some "GB", some "Total", some "retail", some 1, some 1, some false,
      some 0, some 10, some 12⟩,
     ⟨some "GB", some "Total", some "retail", some 1, some 1, some false,
      some 1, some (mkRat 63 5), some 12⟩]
    ⟨1, [⟨some "GB", some "Total", some "retail", some 1, some 1,
      some false, some 1, some (mkRat 63 5), some 12⟩]⟩
    ⟨some "GB", some "Total", some "retail", some 1, some 1, some false,
      some 1, some (mkRat 63 5), some 12⟩
    (by decide) (by decide) (by decide) (by decide)

/-- C2: the reconciled table is the full outer join of the summary
(headline) table and the plot (series) table on `plot_num = graph_num`, and
no unmatched row of either table is dropped: a headline row with no
matching series row still appears in the merged table with the series-side
fields (asterisk, date, value) empty, a series row with no matching
headline row appears with the headline-side fields (country, region,
plot_name, page_num, plot_num, headline) empty, and every row of either
input table contributes at least one merged row carrying its fields. -/
theorem claim_C2_outer_join_totality :
    (∀ (L : List SummaryRow) (R : List PlotRow) (l : SummaryRow),
        l ∈ L →
        (∀ r ∈ R, r.graph_num ≠ l.plot_num) →
        (⟨some l.country, some l.region, some l.plot_name, some l.page_num,
          some l.plot_num, none, none, none, some l.headline⟩ : FinalRow) ∈
          outerMerge L R) ∧
    (∀ (L : List SummaryRow) (R : List PlotRow) (r : PlotRow),
        r ∈ R →
        (∀ l ∈ L, l.plot_num ≠ r.graph_num) →
        (⟨none, none, none, none, none, some r.asterisk, some r.date,
          r.value, none⟩ : FinalRow) ∈ outerMerge L R) ∧
    (∀ (L : List SummaryRow) (R : List PlotRow) (l : SummaryRow), l ∈ L →
        ∃ row ∈ outerMerge L R,
          row.country = some l.country ∧ row.region = some l.region ∧
          row.plot_name = some l.plot_name ∧ row.page_num = some l.page_num ∧
          row.plot_num = some l.plot_num ∧ row.headline = some l.headline) ∧
    (∀ (L : List SummaryRow) (R : List PlotRow) (r : PlotRow), r ∈ R →
        ∃ row ∈ outerMerge L R,
          row.asterisk = some r.asterisk ∧ row.date = some r.date ∧
          row.value = r.value) := by
  have hleft : ∀ (L : List SummaryRow) (R : List PlotRow) (l : SummaryRow),
      l ∈ L → (∀ r ∈ R, r.graph_num ≠ l.plot_num) →
      leftOnlyRow l ∈ outerMerge L R := by
    intro L R l hl hno
    apply List.mem_append.mpr
    left
    apply List.mem_flatMap.mpr
    refine ⟨l, hl, ?_⟩
    have hms : R.filter (fun r => r.graph_num = l.plot_num) = [] := by
      apply List.filter_eq_nil_iff.mpr
      intro r hr
      simp [hno r hr]
    rw [hms]
    simp
  have hright : ∀ (L : List SummaryRow) (R : List PlotRow) (r : PlotRow),
      r ∈ R → (∀ l ∈ L, l.plot_num ≠ r.graph_num) →
      rightOnlyRow r ∈ outerMerge L R := by
    intro L R r hr hno
    apply List.mem_append.mpr
    right
    apply List.mem_map_of_mem
    apply List.mem_filter.mpr
    refine ⟨hr, ?_⟩
    simp only [List.all_eq_true, decide_eq_true_eq]
    intro l hl
    exact hno l hl
  refine ⟨hleft, hright, ?_, ?_⟩
  · intro L R l hl
    cases hms : R.filter (fun r => r.graph_num = l.plot_num) with
    | nil =>
        refine ⟨leftOnlyRow l, ?_, rfl, rfl, rfl, rfl, rfl, rfl⟩
        apply hleft L R l hl
        intro r hr hgr
        have : r ∈ R.filter (fun r => r.graph_num = l.plot_num) :=
          List.mem_filter.mpr ⟨hr, by simp [hgr]⟩
        rw [hms] at this
        cases this
    | cons r0 rs =>
        refine ⟨mergeRow l r0, ?_, rfl, rfl, rfl, rfl, rfl, rfl⟩
        apply List.mem_append.mpr
        left
        apply List.mem_flatMap.mpr
        refine ⟨l, hl, ?_⟩
        rw [hms]
        simp only [List.isEmpty_cons, Bool.false_eq_true, if_false]
        exact List.mem_map_of_mem (mergeRow l) (List.mem_cons_self r0 rs)
  · intro L R r hr
    by_cases hex : ∀ l ∈ L, l.plot_num ≠ r.graph_num
    · exact ⟨rightOnlyRow r, hright L R r hr hex, rfl, rfl, rfl⟩
    · push_neg at hex
      obtain ⟨l, hl, hmatch⟩ := hex
      refine ⟨mergeRow l r, ?_, rfl, rfl, rfl⟩
      apply List.mem_append.mpr
      left
      apply List.mem_flatMap.mpr
      refine ⟨l, hl, ?_⟩
      have hrin : r ∈ R.filter (fun x => x.graph_num = l.plot_num) :=
        List.mem_filter.mpr ⟨hr, by simp [hmatch]⟩
      have hne : R.filter (fun x => x.graph_num = l.plot_num) ≠ [] :=
        List.ne_nil_of_mem hrin
      rw [if_neg (by simpa [List.isEmpty_iff] using hne)]
      exact List.mem_map_of_mem (mergeRow l) hrin

/-- Witness for C2: with one headline row keyed 1 and one series row keyed
2, the merged table contains the headline row with empty series-side fields
and the series row with empty headline-side fields. -/
theorem claim_C2_outer_join_totality_witness :
    (⟨some "GB", some "Total", some "retail", some 1, some 1,
      none, none, none, some "12%"⟩ : FinalRow) ∈
      outerMerge [⟨"GB", "Total", "retail", 1, 1, "12%"⟩]
        [⟨2, false, 0, some 10⟩] ∧
    (⟨none, none, none, none, none, some false, some 0,
      some 10, none⟩ : FinalRow) ∈
      outerMerge [⟨"GB", "Total", "retail", 1, 1, "12%"⟩]
        [⟨2, false, 0, some 10⟩] :=
  ⟨claim_C2_outer_join_totality.1
      [⟨"GB", "Total", "retail", 1, 1, "12%"⟩] [⟨2, false, 0, some 10⟩]
      ⟨"GB", "Total", "retail", 1, 1, "12%"⟩ (by decide) (by decide),
   claim_C2_outer_join_totality.2.1
      [⟨"GB", "Total", "retail", 1, 1, "12%"⟩] [⟨2, false, 0, some 10⟩]
      ⟨2, false, 0, some 10⟩ (by decide) (by decide)⟩

/-! ### Unfolding `knit` and `proc` by stage -/

/-- `knit` when every load succeeds. -/
theorem knit_eq_ok {env : KnitEnv} {pdf svg out dates : String}
    {summary : List SummaryRow} {data : List (Int × ChartPaths)}
    {lookup : DateLookup}
    (h1 : env.summarise pdf = .ok summary)
    (h2 : env.graphProcess svg = .ok data)
    (h3 : env.readCsv dates = .ok lookup) :
    knit env pdf svg out dates =
      (⟨joinPath out (stem pdf ++ "_summary.csv"), summaryCsv summary⟩ ::
         (data.map fun p => env.csvProcess p.2 p.1 lookup out).map Prod.snd ++
         [⟨joinPath out (stem pdf ++ ".csv"),
           finalCsv (outerMerge summary
             (((data.map fun p => env.csvProcess p.2 p.1 lookup out).map
               Prod.fst).flatten))⟩],
       validate (outerMerge summary
         (((data.map fun p => env.csvProcess p.2 p.1 lookup out).map
           Prod.fst).flatten))) := by
  simp only [knit, h1, h2, h3]

/-- `knit` when the text document fails to load: nothing is written. -/
theorem knit_eq_error_pdf {env : KnitEnv} {pdf svg out dates e : String}
    (h1 : env.summarise pdf = .error e) :
    knit env pdf svg out dates = ([], .error e) := by
  simp only [knit, h1]

/-- `knit` when the chart document fails to load: the summary table has
already been written. -/
theorem knit_eq_error_svg {env : KnitEnv} {pdf svg out dates e : String}
    {summary : List SummaryRow}
    (h1 : env.summarise pdf = .ok summary)
    (h2 : env.graphProcess svg = .error e) :
    knit env pdf svg out dates =
      ([⟨joinPath out (stem pdf ++ "_summary.csv"), summaryCsv summary⟩],
       .error e) := by
  simp only [knit, h1, h2]

/-- `knit` when the date-lookup table fails to load: the summary table has
already been written. -/
theorem knit_eq_error_dates {env : KnitEnv} {pdf svg out dates e : String}
    {summary : List SummaryRow} {data : List (Int × ChartPaths)}
    (h1 : env.summarise pdf = .ok summary)
    (h2 : env.graphProcess svg = .ok data)
    (h3 : env.readCsv dates = .error e) :
    knit env pdf svg out dates =
      ([⟨joinPath out (stem pdf ++ "_summary.csv"), summaryCsv summary⟩],
       .error e) := by
  simp only [knit, h1, h2, h3]

/-- `proc` when the date-lookup table fails to load: nothing is written. -/
theorem proc_eq_error_dates {env : KnitEnv} {loc out dates e : String}
    {folder : Option String}
    (h1 : env.readCsv dates = .error e) :
    proc env loc out folder dates = ([], .error e) := by
  simp only [proc, h1]

/-- `proc` when the chart document fails to load: nothing is written. -/
theorem proc_eq_error_svg {env : KnitEnv} {loc out dates e : String}
    {folder : Option String} {lookup : DateLookup}
    (h1 : env.readCsv dates = .ok lookup)
    (h2 : env.graphProcess loc = .error e) :
    proc env loc out folder dates = ([], .error e) := by
  simp only [proc, h1, h2]

/-- The writes of a successful `knit` run end with the final reconciled
table. -/
theorem knit_getLast_final {env : KnitEnv} {pdf svg out dates : String}
    {summary : List SummaryRow} {data : List (Int × ChartPaths)}
    {lookup : DateLookup}
    (h1 : env.summarise pdf = .ok summary)
    (h2 : env.graphProcess svg = .ok data)
    (h3 : env.readCsv dates = .ok lookup) :
    (knit env pdf svg out dates).1.getLast? =
      some ⟨joinPath out (stem pdf ++ ".csv"),
        finalCsv (outerMerge summary
          (((data.map fun p => env.csvProcess p.2 p.1 lookup out).map
            Prod.fst).flatten))⟩ := by
  rw [knit_eq_ok h1 h2 h3]
  show ((_ :: _) ++ _).getLast? = _
  rw [List.getLast?_concat]

/-- C6: the final reconciled output table — the last file a successful
`knit` run writes — contains exactly the columns country, region,
plot_name, page_num, plot_num, asterisk, date, value, headline, in that
order, written row-oriented with the header row first and every data row
holding the nine fields in that order. -/
theorem claim_C6_final_table_columns :
    (∀ (env : KnitEnv) (pdf svg out dates : String)
        (summary : List SummaryRow) (data : List (Int × ChartPaths))
        (lookup : DateLookup),
        env.summarise pdf = .ok summary →
        env.graphProcess svg = .ok data →
        env.readCsv dates = .ok lookup →
        (knit env pdf svg out dates).1.getLast? =
          some ⟨joinPath out (stem pdf ++ ".csv"),
            finalHeader ::
              (outerMerge summary
                (((data.map fun p => env.csvProcess p.2 p.1 lookup out).map
                  Prod.fst).flatten)).map renderFinalRow⟩) ∧
    finalHeader =
      [Cell.str "country", Cell.str "region", Cell.str "plot_name",
       Cell.str "page_num", Cell.str "plot_num", Cell.str "asterisk",
       Cell.str "date", Cell.str "value", Cell.str "headline"] ∧
    (∀ r : FinalRow,
        renderFinalRow r =
          [cellOpt Cell.str r.country, cellOpt Cell.str r.region,
           cellOpt Cell.str r.plot_name, cellOpt Cell.int r.page_num,
           cellOpt Cell.int r.plot_num, cellOpt Cell.boolean r.asterisk,
           cellOpt (fun d => Cell.int (d : Int)) r.date,
           cellOpt Cell.num r.value, cellOpt Cell.str r.headline] ∧
        (renderFinalRow r).length = 9) :=
  ⟨fun _ _ _ _ _ _ _ _ h1 h2 h3 => knit_getLast_final h1 h2 h3,
   rfl, fun _ => ⟨rfl, rfl⟩⟩

/-- A concrete environment for exercising `knit`: one summary row keyed 1
with headline text "12%", one chart keyed 1 whose sampled series has a
single point valued 12.4, an empty date lookup. -/
def exEnvC6 : KnitEnv where
  summarise := fun _ => .ok [⟨"GB", "Total", "retail", 1, 1, "12%"⟩]
  graphProcess := fun _ => .ok [(1, [[(0, 0)]])]
  readCsv := fun _ => .ok []
  csvProcess := fun _ num _ out =>
    ([⟨num, false, 0, some (mkRat 62 5)⟩],
     ⟨joinPath out "chart.csv",
      [[Cell.str "graph_num", Cell.str "asterisk", Cell.str "date",
        Cell.str "value"],
       [Cell.int num, Cell.boolean false, Cell.int 0,
        Cell.num (mkRat 62 5)]]⟩)
  prepOutput := fun _ o _ => o

/-- Witness for C6: on the concrete environment the last write is the
final table under "o/r.csv", header row first, then the single merged row
with its nine cells in order. -/
theorem claim_C6_final_table_columns_witness :
    (knit exEnvC6 "r.pdf" "r.svg" "o" "d.csv").1.getLast? =
      some ⟨"o/r.csv",
        [[Cell.str "country", Cell.str "region", Cell.str "plot_name",
          Cell.str "page_num", Cell.str "plot_num", Cell.str "asterisk",
          Cell.str "date", Cell.str "value", Cell.str "headline"],
         [Cell.str "GB", Cell.str "Total", Cell.str "retail", Cell.int 1,
          Cell.int 1, Cell.boolean false, Cell.int 0,
          Cell.num (mkRat 62 5), Cell.str "12%"]]⟩ :=
  (claim_C6_final_table_columns.1 exEnvC6 "r.pdf" "r.svg" "o" "d.csv"
    [⟨"GB", "Total", "retail", 1, 1, "12%"⟩] [(1, [[(0, 0)]])] []
    rfl rfl rfl).trans (by decide)

/-- C8: the pipeline is a deterministic pure function of its inputs:
two `knit` runs whose three source loads (text document, chart document,
date-lookup table) return the same parsed contents, and whose sampling
transform is the same, produce identical file writes (identical output
tables) and an identical report; likewise for `proc`. -/
theorem claim_C8_deterministic :
    (∀ (e1 e2 : KnitEnv) (pdf svg out dates : String),
        e1.summarise pdf = e2.summarise pdf →
        e1.graphProcess svg = e2.graphProcess svg →
        e1.readCsv dates = e2.readCsv dates →
        e1.csvProcess = e2.csvProcess →
        knit e1 pdf svg out dates = knit e2 pdf svg out dates) ∧
    (∀ (e1 e2 : KnitEnv) (loc out dates : String) (folder : Option String),
        e1.graphProcess loc = e2.graphProcess loc →
        e1.readCsv dates = e2.readCsv dates →
        e1.csvProcess = e2.csvProcess →
        e1.prepOutput = e2.prepOutput →
        proc e1 loc out folder dates = proc e2 loc out folder dates) := by
  constructor
  · intro e1 e2 pdf svg out dates h1 h2 h3 h4
    simp only [knit, h1, h2, h3, h4]
  · intro e1 e2 loc out dates folder h2 h3 h4 h5
    simp only [proc, h2, h3, h4, h5]

/-- Witness for C8: re-running `knit` on the same environment and
arguments yields the same writes and report. -/
theorem claim_C8_deterministic_witness :
    knit exEnvC6 "r.pdf" "r.svg" "o" "d.csv" =
      knit exEnvC6 "r.pdf" "r.svg" "o" "d.csv" :=
  claim_C8_deterministic.1 exEnvC6 exEnvC6 "r.pdf" "r.svg" "o" "d.csv"
    rfl rfl rfl rfl

/-- An environment whose chart document is malformed: `graph_process`
raises while the text document and the date lookup are fine. -/
def exEnvC7 : KnitEnv where
  summarise := fun _ => .ok [⟨"GB", "Total", "retail", 1, 1, "12%"⟩]
  graphProcess := fun _ => .error "malformed chart document"
  readCsv := fun _ => .ok []
  csvProcess := fun _ num _ out => ([⟨num, false, 0, none⟩], ⟨out, []⟩)
  prepOutput := fun _ o _ => o

/-- C7 counterexample: with a malformed chart document, `knit` aborts with
the propagated error and writes none of the later files — but the summary
table has already been written, so the failed run does leave partial
output on disk, contrary to the claim. -/
theorem claim_C7_counterexample :
    (knit exEnvC7 "r.pdf" "r.svg" "o" "d.csv").2 =
      .error "malformed chart document" ∧
    (knit exEnvC7 "r.pdf" "r.svg" "o" "d.csv").1 =
      [⟨"o/r_summary.csv",
        [[Cell.str "country", Cell.str "region", Cell.str "plot_name",
          Cell.str "page_num", Cell.str "plot_num", Cell.str "headline"],
         [Cell.str "GB", Cell.str "Total", Cell.str "retail", Cell.int 1,
          Cell.int 1, Cell.str "12%"]]⟩] ∧
    (knit exEnvC7 "r.pdf" "r.svg" "o" "d.csv").1 ≠ [] := by
  decide

/-- C7 amended: a failing source load propagates its error unchanged and
aborts the run — no pipeline stage after the failing load executes (no
later file is written, no report is produced) and no retry or recovery is
attempted.  `proc` writes nothing at all when a load fails; `knit` writes
the summary table before loading the chart document and the date-lookup
table, so when one of those two loads fails the already-written summary
file remains as the failed run's only output. -/
theorem claim_C7_error_propagation :
    (∀ (env : KnitEnv) (pdf svg out dates e : String),
        env.summarise pdf = .error e →
        knit env pdf svg out dates = ([], .error e)) ∧
    (∀ (env : KnitEnv) (pdf svg out dates e : String)
        (summary : List SummaryRow),
        env.summarise pdf = .ok summary →
        env.graphProcess svg = .error e →
        knit env pdf svg out dates =
          ([⟨joinPath out (stem pdf ++ "_summary.csv"), summaryCsv summary⟩],
           .error e)) ∧
    (∀ (env : KnitEnv) (pdf svg out dates e : String)
        (summary : List SummaryRow) (data : List (Int × ChartPaths)),
        env.summarise pdf = .ok summary →
        env.graphProcess svg = .ok data →
        env.readCsv dates = .error e →
        knit env pdf svg out dates =
          ([⟨joinPath out (stem pdf ++ "_summary.csv"), summaryCsv summary⟩],
           .error e)) ∧
    (∀ (env : KnitEnv) (loc out dates e : String) (folder : Option String),
        env.readCsv dates = .error e →
        proc env loc out folder dates = ([], .error e)) ∧
    (∀ (env : KnitEnv) (loc out dates e : String) (folder : Option String)
        (lookup : DateLookup),
        env.readCsv dates = .ok lookup →
        env.graphProcess loc = .error e →
        proc env loc out folder dates = ([], .error e)) :=
  ⟨fun _ _ _ _ _ _ h1 => knit_eq_error_pdf h1,
   fun _ _ _ _ _ _ _ h1 h2 => knit_eq_error_svg h1 h2,
   fun _ _ _ _ _ _ _ _ h1 h2 h3 => knit_eq_error_dates h1 h2 h3,
   fun _ _ _ _ _ _ h1 => proc_eq_error_dates h1,
   fun _ _ _ _ _ _ _ h1 h2 => proc_eq_error_svg h1 h2⟩

/-- Witness for the amended C7: the malformed-chart run aborts with the
load's own error, having written exactly the summary file. -/
theorem claim_C7_error_propagation_witness :
    knit exEnvC7 "r.pdf" "r.svg" "o" "d.csv" =
      ([⟨joinPath "o" (stem "r.pdf" ++ "_summary.csv"),
         summaryCsv [⟨"GB", "Total", "retail", 1, 1, "12%"⟩]⟩],
       .error "malformed chart document") :=
  claim_C7_error_propagation.2.1 exEnvC7 "r.pdf" "r.svg" "o" "d.csv"
    "malformed chart document" [⟨"GB", "Total", "retail", 1, 1, "12%"⟩]
    rfl rfl

/-- A cell holding a numeric value or the missing marker. -/
def Cell.isNumericOrMissing : Cell → Bool
  | .num _ => true
  | .na => true
  | _ => false

/-- C5 counterexample: in a successful concrete run both persisted tables
hold the raw headline text `"12%"` — percent sign included — in their
headline column, which is neither numeric nor missing; the normalization
happens only inside `validate`, after both files are written. -/
theorem claim_C5_counterexample :
    (knit exEnvC6 "r.pdf" "r.svg" "o" "d.csv").1.head? =
      some ⟨"o/r_summary.csv",
        [[Cell.str "country", Cell.str "region", Cell.str "plot_name",
          Cell.str "page_num", Cell.str "plot_num", Cell.str "headline"],
         [Cell.str "GB", Cell.str "Total", Cell.str "retail", Cell.int 1,
          Cell.int 1, Cell.str "12%"]]⟩ ∧
    (knit exEnvC6 "r.pdf" "r.svg" "o" "d.csv").1.getLast? =
      some ⟨"o/r.csv",
        [[Cell.str "country", Cell.str "region", Cell.str "plot_name",
          Cell.str "page_num", Cell.str "plot_num", Cell.str "asterisk",
          Cell.str "date", Cell.str "value", Cell.str "headline"],
         [Cell.str "GB", Cell.str "Total", Cell.str "retail", Cell.int 1,
          Cell.int 1, Cell.boolean false, Cell.int 0,
          Cell.num (mkRat 62 5), Cell.str "12%"]]⟩ ∧
    Cell.isNumericOrMissing (Cell.str "12%") = false := by
  decide

/-- C5 amended: the persisted output tables hold the raw headline text, not
a normalized value: in every successful run the summary table is written
first with the headline column as extracted text, the final reconciled
table is written with its headline cells the raw text of the matching
summary row (`NaN` only for rows unmatched by the outer join), and both
writes happen before `validate` normalizes anything — sentinel text and
percent signs reach the disk untouched. -/
theorem claim_C5_raw_headline_persisted :
    (∀ (env : KnitEnv) (pdf svg out dates : String)
        (summary : List SummaryRow) (data : List (Int × ChartPaths))
        (lookup : DateLookup),
        env.summarise pdf = .ok summary →
        env.graphProcess svg = .ok data →
        env.readCsv dates = .ok lookup →
        (knit env pdf svg out dates).1.head? =
          some ⟨joinPath out (stem pdf ++ "_summary.csv"),
            summaryCsv summary⟩ ∧
        (knit env pdf svg out dates).1.getLast? =
          some ⟨joinPath out (stem pdf ++ ".csv"),
            finalCsv (outerMerge summary
              (((data.map fun p => env.csvProcess p.2 p.1 lookup out).map
                Prod.fst).flatten))⟩) ∧
    (∀ l : SummaryRow,
        (renderSummaryRow l).getLastD Cell.na = Cell.str l.headline) ∧
    (∀ r : FinalRow,
        (renderFinalRow r).getLastD Cell.na = cellOpt Cell.str r.headline) := by
  refine ⟨?_, fun l => rfl, fun r => rfl⟩
  intro env pdf svg out dates summary data lookup h1 h2 h3
  refine ⟨?_, knit_getLast_final h1 h2 h3⟩
  rw [knit_eq_ok h1 h2 h3]
  rfl

/-- Witness for the amended C5: the concrete run's first write is the
summary table with the raw text "12%" in its headline column. -/
theorem claim_C5_raw_headline_persisted_witness :
    (knit exEnvC6 "r.pdf" "r.svg" "o" "d.csv").1.head? =
      some ⟨"o/r_summary.csv",
        [[Cell.str "country", Cell.str "region", Cell.str "plot_name",
          Cell.str "page_num", Cell.str "plot_num", Cell.str "headline"],
         [Cell.str "GB", Cell.str "Total", Cell.str "retail", Cell.int 1,
          Cell.int 1, Cell.str "12%"]]⟩ :=
  ((claim_C5_raw_headline_persisted.1 exEnvC6 "r.pdf" "r.svg" "o" "d.csv"
    [⟨"GB", "Total", "retail", 1, 1, "12%"⟩] [(1, [[(0, 0)]])] []
    rfl rfl rfl).1).trans (by decide)
